import Mathlib

/-
Verification development for the pava mini-JVM (class-file parser and
bytecode interpreter).

The definitions below are a shallow embedding of the Python sources:
  src/utils.py       byte-level readers and u16_to_i16
  src/jvmconsts.py   constant tags, flag tables, opcode byte values
  src/jvmparser.py   constant-pool decoder and class-file header loader
  src/main.py        descriptor parser, runtime-class registry, interpreter

Python integers are embedded as Nat or Int (they are unbounded); byte
streams are a list of byte values with a cursor, mirroring io.BytesIO.
Fallible code returns Except.  Constructor names of the error types name
the Python exception or message that the corresponding branch raises.
-/

/-- Operand value tags, from the OperandType enum of src/main.py. -/
inductive OperandType
  | OBJECT
  | INT
  | LONG
  | FLOAT
  | DOUBLE
  | REFERENCE
  | RETURN_ADDR
  | VOID
deriving DecidableEq, Repr

/-- Runtime values stored in Operand.value.  Python stores arbitrary
objects in this field; the fragment the claims exercise only ever stores
unbounded integers (INT and LONG operands), None (null references), and
the float literal 0.0 used as the default for static FLOAT and DOUBLE
fields, so those are the constructors.  vfzero stands for the Python
float 0.0; no float arithmetic is modelled. -/
inductive Value
  | vint (i : Int)
  | vnull
  | vfzero
deriving DecidableEq, Repr

/-- The Operand dataclass of src/main.py: a type tag and a value. -/
structure Operand where
  type : OperandType
  value : Value
deriving DecidableEq, Repr

/-- A byte stream with a cursor, mirroring io.BytesIO over a bytes value. -/
structure ByteStream where
  data : List Nat
  pos : Nat
deriving DecidableEq, Repr

/-- Big-endian value of a byte list, as int.from_bytes(bs, 'big').
On the empty list this is 0, exactly as in Python. -/
def bytesToNatBE (bs : List Nat) : Nat := bs.foldl (fun a b => a * 256 + b) 0

/-- Little-endian value of a byte list, as int.from_bytes(bs, 'little'). -/
def bytesToNatLE (bs : List Nat) : Nat := bs.foldr (fun b a => a * 256 + b) 0

/-- BytesIO.read n: returns up to n bytes from the cursor and advances the
cursor by the number of bytes actually read. -/
def bsRead (s : ByteStream) (n : Nat) : List Nat × ByteStream :=
  let bs := (s.data.drop s.pos).take n
  (bs, ⟨s.data, s.pos + bs.length⟩)

/-- utils.parse_i1: int.from_bytes(f.read(1), 'big').  Despite the i in
its name this does NOT sign-extend: a short read yields 0 and a byte b
yields b itself (0..255). -/
def parse_i1 (s : ByteStream) : Nat × ByteStream :=
  let (bs, s1) := bsRead s 1
  (bytesToNatBE bs, s1)

/-- utils.parse_i2: int.from_bytes(f.read(2), 'big'), unsigned in effect. -/
def parse_i2 (s : ByteStream) : Nat × ByteStream :=
  let (bs, s1) := bsRead s 2
  (bytesToNatBE bs, s1)

/-- utils.parse_i4: int.from_bytes(f.read(4), 'big'), unsigned in effect. -/
def parse_i4 (s : ByteStream) : Nat × ByteStream :=
  let (bs, s1) := bsRead s 4
  (bytesToNatBE bs, s1)

/-- utils.u16_to_i16: reinterpret an unsigned 16-bit value as signed. -/
def u16_to_i16 (v : Nat) : Int :=
  if v &&& 0x8000 ≠ 0 then (v : Int) - 0x10000 else (v : Int)

/-- Errors raised by the class-file parsing code of src/jvmparser.py. -/
inductive ParseErr
  /-- RuntimeError for a bad magic number in parse_class_file. -/
  | badMagic
  /-- ValueError from Constant(tag) for a byte that is no constant tag,
  reraised as NotImplementedError with the offending tag. -/
  | unknownConstantTag (tag : Nat)
  /-- The final else of parse_constant_pool (reached for the
  CONSTANT_MethodType tag, which the chain never handles). -/
  | unexpectedConstantTag
  /-- struct.error from a short read in parse_u1 or parse_f4. -/
  | structError
  /-- AssertionError from the index > 0 assertion of from_cp. -/
  | assertionFailure
  /-- IndexError from indexing the pool list out of range. -/
  | indexOutOfRange
deriving DecidableEq, Repr

/-- utils.parse_f4: struct.unpack of 4 bytes.  The claims never touch
Float constants, so the IEEE-754 decoding is kept abstract: the payload
is the raw big-endian 32-bit pattern.  A short read is fatal
(struct.error), unlike the int.from_bytes readers. -/
def parse_f4 (s : ByteStream) : Except ParseErr (Nat × ByteStream) :=
  let (bs, s1) := bsRead s 4
  if bs.length = 4 then .ok (bytesToNatBE bs, s1) else .error .structError

/-- A decoded constant-pool entry: one case per constant kind handled by
parse_constant_pool, holding exactly the fields the Python dict stores.
Integer, Long and Double hold the raw unsigned big-endian value, exactly
as the source computes it (no twos-complement reinterpretation). -/
inductive CpInfo
  | methodref (class_index name_and_type_index : Nat)
  | classref (name_index : Nat)
  | nameAndType (name_index descriptor_index : Nat)
  | utf8 (bytes : List Nat)
  | fieldref (class_index name_and_type_index : Nat)
  | stringref (string_index : Nat)
  | invokeDynamic (bootstrap_method_attr_index name_and_type_index : Nat)
  | methodHandle (reference_kind reference_index : Nat)
  | floatc (raw_bits : Nat)
  | integerc (v : Nat)
  | longc (v : Nat)
  | doublec (v : Nat)
  | interfaceMethodref (class_index name_and_type_index : Nat)
deriving DecidableEq, Repr

/-- One iteration of the loop body of parse_constant_pool: read the tag
byte and the tag-specific fields.  Tag values are those of the Constant
enum in src/jvmconsts.py.  Tag 16 (CONSTANT_MethodType) is a valid enum
member but has no branch in the chain, so it falls to the final else. -/
def parse_cp_entry (s : ByteStream) : Except ParseErr (CpInfo × ByteStream) :=
  let (tag, s1) := parse_i1 s
  if tag = 10 then
    let (a, s2) := parse_i2 s1
    let (b, s3) := parse_i2 s2
    .ok (.methodref a b, s3)
  else if tag = 7 then
    let (a, s2) := parse_i2 s1
    .ok (.classref a, s2)
  else if tag = 12 then
    let (a, s2) := parse_i2 s1
    let (b, s3) := parse_i2 s2
    .ok (.nameAndType a b, s3)
  else if tag = 1 then
    let (len, s2) := parse_i2 s1
    let (bs, s3) := bsRead s2 len
    .ok (.utf8 bs, s3)
  else if tag = 9 then
    let (a, s2) := parse_i2 s1
    let (b, s3) := parse_i2 s2
    .ok (.fieldref a b, s3)
  else if tag = 8 then
    let (a, s2) := parse_i2 s1
    .ok (.stringref a, s2)
  else if tag = 18 then
    let (a, s2) := parse_i2 s1
    let (b, s3) := parse_i2 s2
    .ok (.invokeDynamic a b, s3)
  else if tag = 15 then
    let (a, s2) := parse_i1 s1
    let (b, s3) := parse_i2 s2
    .ok (.methodHandle a b, s3)
  else if tag = 4 then
    match parse_f4 s1 with
    | .error e => .error e
    | .ok (bits, s2) => .ok (.floatc bits, s2)
  else if tag = 3 then
    let (v, s2) := parse_i4 s1
    .ok (.integerc v, s2)
  else if tag = 5 then
    let (hi, s2) := parse_i4 s1
    let (lo, s3) := parse_i4 s2
    .ok (.longc ((hi <<< 32) + lo), s3)
  else if tag = 6 then
    let (hi, s2) := parse_i4 s1
    let (lo, s3) := parse_i4 s2
    .ok (.doublec ((hi <<< 32) + lo), s3)
  else if tag = 11 then
    let (a, s2) := parse_i2 s1
    let (b, s3) := parse_i2 s2
    .ok (.interfaceMethodref a b, s3)
  else if tag = 16 then
    .error .unexpectedConstantTag
  else
    .error (.unknownConstantTag tag)

/-- The loop of parse_constant_pool, iterated a fixed number of times.
Each iteration appends exactly ONE entry: the source reserves no phantom
slot after a Long or Double entry. -/
def parse_constant_pool_iter : Nat → ByteStream → Except ParseErr (List CpInfo × ByteStream)
  | 0, s => .ok ([], s)
  | n + 1, s =>
    match parse_cp_entry s with
    | .error e => .error e
    | .ok (e, s1) =>
      match parse_constant_pool_iter n s1 with
      | .error err => .error err
      | .ok (rest, s2) => .ok (e :: rest, s2)

/-- jvmparser.parse_constant_pool: loops range(constant_pool_count - 1). -/
def parse_constant_pool (s : ByteStream) (constant_pool_count : Nat) :
    Except ParseErr (List CpInfo × ByteStream) :=
  parse_constant_pool_iter (constant_pool_count - 1) s

/-- jvmparser.from_cp: assert index > 0, then return constant_pool[index-1].
The index is an Int because interpreter call sites can produce a negative
index through u16_to_i16. -/
def from_cp (constant_pool : List CpInfo) (index : Int) : Except ParseErr CpInfo :=
  if index ≤ 0 then .error .assertionFailure
  else
    match constant_pool.get? (index.toNat - 1) with
    | some e => .ok e
    | none => .error .indexOutOfRange

/-- jvmparser.parse_flags: the names of the given flag table whose mask
bits intersect the value, in table order. -/
def parse_flags (value : Nat) (flags : List (String × Nat)) : List String :=
  (flags.filter (fun p => value &&& p.2 != 0)).map (fun p => p.1)

/-- CLASS_ACCESS_FLAGS from src/jvmconsts.py. -/
def CLASS_ACCESS_FLAGS : List (String × Nat) :=
  [("ACC_PUBLIC", 0x0001), ("ACC_FINAL", 0x0010), ("ACC_SUPER", 0x0020),
   ("ACC_INTERFACE", 0x0200), ("ACC_ABSTRACT", 0x0400), ("ACC_SYNTHETIC", 0x1000),
   ("ACC_ANNOTATION", 0x2000), ("ACC_ENUM", 0x4000)]

/-- METHOD_ACCESS_FLAGS from src/jvmconsts.py. -/
def METHOD_ACCESS_FLAGS : List (String × Nat) :=
  [("ACC_PUBLIC", 0x0001), ("ACC_PRIVATE", 0x0002), ("ACC_PROTECTED", 0x0004),
   ("ACC_STATIC", 0x0008), ("ACC_FINAL", 0x0010), ("ACC_SYNCHRONIZED", 0x0020),
   ("ACC_BRIDGE", 0x0040), ("ACC_VARARGS", 0x0080), ("ACC_NATIVE", 0x0100),
   ("ACC_ABSTRACT", 0x0400), ("ACC_STRICT", 0x0800), ("ACC_SYNTHETIC", 0x1000)]

/-- jvmparser.parse_interfaces: interfaces_count entries, each a u2 pool
index (the source wraps each in a one-key dict). -/
def parse_interfaces : Nat → ByteStream → List Nat × ByteStream
  | 0, s => ([], s)
  | n + 1, s =>
    let (ix, s1) := parse_i2 s
    let (rest, s2) := parse_interfaces n s1
    (ix :: rest, s2)

/-- The fields of JVMClassFile that the header part of parse_class_file
fills in (src/jvmparser.py lines 413-430), before fields and methods
are read. -/
structure ClassFileHeaderInfo where
  version : Nat × Nat
  constant_pool : List CpInfo
  access_flags : List String
  this_class : Nat
  super_class : Nat
  interfaces : List Nat
deriving DecidableEq, Repr

/-- The header part of jvmparser.parse_class_file, through the interfaces
list: magic check, versions, constant pool, class access flags,
this_class, super_class, interfaces_count and interfaces.  The source
compares hex(magic) with the string 0xcafebabe, which is equivalent to
comparing the value.  interfaces_count is read LITTLE-endian
(int.from_bytes(f.read(2), byteorder='little')), unlike every other
multi-byte field.  The remainder of parse_class_file (fields, methods,
class attributes) is independent of the claims and is not modelled. -/
def parse_class_file_header (s : ByteStream) :
    Except ParseErr (ClassFileHeaderInfo × ByteStream) :=
  let (magic, s1) := parse_i4 s
  if magic ≠ 0xCAFEBABE then .error .badMagic
  else
    let (v_minor, s2) := parse_i2 s1
    let (v_major, s3) := parse_i2 s2
    let (cp_count, s4) := parse_i2 s3
    match parse_constant_pool s4 cp_count with
    | .error e => .error e
    | .ok (pool, s5) =>
      let (flag_bits, s6) := parse_i2 s5
      let access_flags := parse_flags flag_bits CLASS_ACCESS_FLAGS
      let (this_class, s7) := parse_i2 s6
      let (super_class, s8) := parse_i2 s7
      let (icBytes, s9) := bsRead s8 2
      let interfaces_count := bytesToNatLE icBytes
      let (interfaces, s10) := parse_interfaces interfaces_count s9
      .ok (⟨(v_major, v_minor), pool, access_flags, this_class, super_class,
            interfaces⟩, s10)

/-- The constant-pool index computed by the invokestatic handler of
execute_method (src/main.py lines 266-268): two unsigned operand bytes
joined and passed through the signed-16 conversion u16_to_i16. -/
def invokestatic_cp_index (indexbyte1 indexbyte2 : Nat) : Int :=
  u16_to_i16 ((indexbyte1 <<< 8) + indexbyte2)

/-- Errors raised by main.parse_signature (both are RuntimeError in the
source, with distinct messages; parse_signature can also die with an
IndexError on a truncated descriptor and an AssertionError on trailing
characters after the return type). -/
inductive SigErr
  | unknownType
  | unknownReturnType
  | indexError
  | assertTrailing
deriving DecidableEq, Repr

/-- main.sig_char_to_operand_types: the if-chain over single characters.
Only I, J, F, D, V, L are recognised; everything else (including the
basic types B, C, S, Z and the array marker) yields None. -/
def sig_char_to_operand_types (c : Char) : Option OperandType :=
  if c = 'I' then some .INT
  else if c = 'J' then some .LONG
  else if c = 'F' then some .FLOAT
  else if c = 'D' then some .DOUBLE
  else if c = 'V' then some .VOID
  else if c = 'L' then some .REFERENCE
  else none

/-- The while-loop of main.parse_signature: consume parameter characters
ONE AT A TIME until the closing parenthesis.  An L is mapped to
REFERENCE without consuming the class name that follows it; an empty
remainder is an IndexError (sig[0] on an empty string). -/
def parse_sig_args : List Char → Except SigErr (List OperandType × List Char)
  | [] => .error .indexError
  | c :: rest =>
    if c = ')' then .ok ([], c :: rest)
    else
      match sig_char_to_operand_types c with
      | none => .error .unknownType
      | some t =>
        match parse_sig_args rest with
        | .error e => .error e
        | .ok (ts, r) => .ok (t :: ts, r)

/-- main.parse_signature on the character list of the descriptor: skip
the first character, read parameter types until the closing parenthesis,
skip it, read one return-type character, and assert that nothing
follows. -/
def parse_signature_chars : List Char → Except SigErr (List OperandType × OperandType)
  | [] => .error .indexError
  | _ :: rest =>
    match parse_sig_args rest with
    | .error e => .error e
    | .ok (args, r1) =>
      match r1.drop 1 with
      | [] => .error .indexError
      | rc :: r3 =>
        match sig_char_to_operand_types rc with
        | none => .error .unknownReturnType
        | some rt => if r3.isEmpty then .ok (args, rt) else .error .assertTrailing

/-- main.parse_signature, as called with the descriptor string. -/
def parse_signature (sig : String) : Except SigErr (List OperandType × OperandType) :=
  parse_signature_chars sig.toList

/-- Errors that terminate execute_method (src/main.py).  Each constructor
names the Python exception of the corresponding branch.  unmodeled marks
the reachable opcodes whose handlers need parts of the runtime that no
claim exercises (constant-pool resolution and nested invocation); their
byte is recorded. -/
inductive ExecErr
  /-- ValueError from Opcode(byte) for a byte with no enum member,
  reraised by execute_method as a fatal unknown-opcode error. -/
  | unknownOpcode (b : Nat)
  /-- The AttributeError raised at src/main.py line 308: the dispatch
  chain evaluates Opcode.pop there, but jvmconsts.Opcode (the enum that
  main.py imports) has no member named pop, so every opcode whose
  handler sits after the sipush branch dies at this test before its
  handler can run. -/
  | attributeErrorPop
  /-- The final raise of execute_method (line 536): the cursor left the
  code array without a return. -/
  | endOfMethod
  /-- Artifact of the embedding: the step bound ran out (the Python
  loop is unbounded). -/
  | fuelExhausted
  /-- Marker of the embedding for a reachable handler outside the
  modelled fragment. -/
  | unmodeled (b : Nat)
deriving DecidableEq, Repr

/-- The Frame dataclass of src/main.py: operand stack and local variable
list.  Both can genuinely hold None in Python (locals are padded with
None up to max_locals), hence the Option. -/
structure Frame where
  stack : List (Option Operand)
  local_vars : List (Option Operand)
deriving DecidableEq, Repr

/-- utils.parse_i1 specialised to the interpreter byte cursor: a short
read yields 0 and leaves the cursor in place, exactly like
int.from_bytes of an empty read. -/
def readI1 (code : List Nat) (pos : Nat) : Nat × Nat :=
  match code[pos]? with
  | some b => (b, pos + 1)
  | none => (0, pos)

/-- utils.parse_i2 on the interpreter byte cursor: up to two bytes,
big-endian, unsigned. -/
def readI2 (code : List Nat) (pos : Nat) : Nat × Nat :=
  let bs := (code.drop pos).take 2
  (bytesToNatBE bs, pos + bs.length)

/-- The byte values of the Opcode enum in src/jvmconsts.py.  A byte
outside this list makes Opcode(byte) raise ValueError, which
execute_method turns into a fatal unknown-opcode error.  Note that the
enum has no member for the pop and putstatic opcodes: bytes 0x57 and
0xB3 are unknown to this interpreter, and the references to Opcode.pop
and Opcode.putstatic in the dispatch chain (main.py lines 308 and 513)
name members that do not exist. -/
def opcode_bytes : List Nat :=
  [0xB2, 0x12, 0x59, 0xB6, 0xBA, 0xB7, 0xB8, 0xB1, 0x10, 0x11, 0x00,
   0xAC, 0xAE, 0xB0, 0xAD, 0xAF,
   0x86, 0x60, 0x68, 0x6C, 0x64, 0x84,
   0x8B, 0x62, 0x66, 0x6A, 0x6E,
   0x01, 0x03, 0x04, 0x05, 0x06, 0x07, 0x08,
   0x09, 0x0A, 0x0B, 0x0C, 0x0D,
   0x36, 0x3B, 0x3C, 0x3D, 0x3E,
   0x43, 0x44, 0x45, 0x46,
   0x15, 0x1A, 0x1B, 0x1C, 0x1D,
   0x22, 0x23, 0x24, 0x25,
   0x2E, 0x4F, 0x4C,
   0x2A, 0x2B, 0x2C, 0x2D,
   0x9F, 0xA0, 0xA1, 0xA2, 0xA3, 0xA4, 0xA7,
   0xBC, 0xBE]

/-- The byte values of the six if_icmp opcodes, in the order of the
membership tuple at src/main.py line 438. -/
def icmp_opcodes : List Nat := [0x9F, 0xA0, 0xA1, 0xA2, 0xA3, 0xA4]

/-- Result of one dispatch iteration of execute_method: either continue
at a new cursor position with an updated frame, or return from the
method with an optional return value (ExecutionReturnInfo). -/
inductive StepResult
  | next (fr : Frame) (pos : Nat)
  | ret (v : Option Operand)
deriving DecidableEq, Repr

/-- Push a constant operand and continue. -/
def push_const (fr : Frame) (pos : Nat) (t : OperandType) (v : Value) :
    Except ExecErr StepResult :=
  .ok (.next ⟨some ⟨t, v⟩ :: fr.stack, fr.local_vars⟩ pos)

/-- One iteration of the dispatch loop of execute_method: read the
opcode byte at the cursor with parse_i1, decode it against the Opcode
enum, and walk the if/elif chain in source order.  The chain is cut
short where the source itself is: after the sipush branch, the next
condition (main.py line 308) evaluates Opcode.pop, a member that does
not exist in jvmconsts.Opcode, so Python raises AttributeError there;
every handler of the chain below that line — pop, the arithmetic and
conversion opcodes, the constants, loads and stores, iinc, the if_icmp
family, goto, the array opcodes, dup, every return opcode and nop — is
therefore unreachable.  The reachable handlers that need the constant
pool or nested invocation (getstatic, ldc, invokevirtual,
invokedynamic, invokestatic) are outside the modelled fragment and are
marked unmodeled. -/
def execStep (code : List Nat) (fr : Frame) (pc : Nat) : Except ExecErr StepResult :=
  let r := readI1 code pc
  let b := r.1
  let p1 := r.2
  if b ∉ opcode_bytes then .error (.unknownOpcode b)
  else if b = 0xB2 then .error (.unmodeled b)     -- getstatic
  else if b = 0x12 then .error (.unmodeled b)     -- ldc
  else if b = 0xB6 then .error (.unmodeled b)     -- invokevirtual
  else if b = 0xBA then .error (.unmodeled b)     -- invokedynamic
  else if b = 0xB8 then .error (.unmodeled b)     -- invokestatic
  else if b = 0xB7 then
    -- invokespecial: the handler is a bare continue, so only the opcode
    -- byte has been consumed and the two operand bytes are NOT skipped.
    .ok (.next fr p1)
  else if b = 0x10 then                            -- bipush via parse_i1
    let q := readI1 code p1
    push_const fr q.2 .INT (.vint q.1)
  else if b = 0x11 then                            -- sipush via parse_i2
    let q := readI2 code p1
    push_const fr q.2 .INT (.vint q.1)
  else
    -- main.py line 308: elif Opcode.pop == opcode.  jvmconsts.Opcode has
    -- no member pop, so evaluating the condition raises AttributeError
    -- for every opcode that reaches this point.
    .error .attributeErrorPop

/-- The dispatch loop of execute_method: while the cursor is inside the
code array, run one step; leaving the array without having returned
raises the final Exception at src/main.py line 536.  The fuel argument
is an artifact of the embedding (the Python loop is unbounded). -/
def execLoop : Nat → List Nat → Frame → Nat → Except ExecErr (Option Operand)
  | 0, _, _, _ => .error .fuelExhausted
  | fuel + 1, code, fr, pc =>
    if pc < code.length then
      match execStep code fr pc with
      | .error e => .error e
      | .ok (.ret v) => .ok v
      | .ok (.next fr2 pc2) => execLoop fuel code fr2 pc2
    else .error .endOfMethod

/-- The per-field data that initialize_runtime_class reads: the resolved
field name, the resolved descriptor string, and the raw access_flags
value.  In the source the name and descriptor are fetched from the
constant pool through name_index and descriptor_index; the model keeps
them pre-resolved since no claim concerns that indirection. -/
structure FieldInfo where
  name : String
  descriptor : String
  access_flags : Nat
deriving DecidableEq, Repr

/-- The fragment of JVMClassFile that the runtime-class registry uses:
the resolved class name (get_name_of of this_class), the field list,
and the clinit member.  clinit abstracts the Code of a method named
since the interpreter itself is modelled separately: it is the sequence
of class files on which the execution of the class initializer calls
initialize_runtime_class (through its getstatic and putstatic handlers),
or none when the class has no class-initializer Code.  Only that call
sequence is relevant to the registration claims. -/
structure RtClassFile where
  name : String
  fields : List FieldInfo
  clinit : Option (List String)
deriving DecidableEq, Repr

/-- The RuntimeClass dataclass of src/main.py. -/
structure RuntimeClass where
  class_file : RtClassFile
  static_fields : List (String × Operand)
deriving DecidableEq, Repr

/-- The runtime_classes dict: class name to RuntimeClass, insertion
order. -/
abbrev Registry := List (String × RuntimeClass)

/-- Dict lookup on the registry. -/
def lookupReg : Registry → String → Option RuntimeClass
  | [], _ => none
  | (n, rc) :: t, k => if n = k then some rc else lookupReg t k

/-- Dict insertion into a name-to-operand mapping, keeping the position
of an existing key like a Python dict does. -/
def setField : List (String × Operand) → String → Operand → List (String × Operand)
  | [], k, v => [(k, v)]
  | (n, x) :: t, k, v => if n = k then (k, v) :: t else (n, x) :: setField t k v

/-- The default value assigned to one static field by
initialize_runtime_class, by descriptor (src/main.py lines 100-111);
an unknown type raises NotImplementedError. -/
def default_static_value (field_type : String) : Except Unit Operand :=
  if field_type = "I" then .ok ⟨.INT, .vint 0⟩
  else if field_type = "F" then .ok ⟨.FLOAT, .vfzero⟩
  else if field_type = "J" then .ok ⟨.LONG, .vint 0⟩
  else if field_type = "D" then .ok ⟨.DOUBLE, .vfzero⟩
  else if field_type.startsWith "L" ∨ field_type.startsWith "[" then
    .ok ⟨.REFERENCE, .vnull⟩
  else .error ()

/-- The field loop of initialize_runtime_class: every field whose
access_flags contain ACC_STATIC gets its default value; other fields
are skipped. -/
def default_statics : List FieldInfo → List (String × Operand) →
    Except Unit (List (String × Operand))
  | [], acc => .ok acc
  | fi :: rest, acc =>
    if "ACC_STATIC" ∈ parse_flags fi.access_flags METHOD_ACCESS_FLAGS then
      match default_static_value fi.descriptor with
      | .error e => .error e
      | .ok v => default_statics rest (setField acc fi.name v)
    else default_statics rest acc

/-- Outcome of a (possibly nested) class initialization: the registry
afterwards, the names of the classes whose class initializer was
actually started (in start order), and whether execution completed
without a fatal error.  On a fatal error the registry keeps what was
inserted before it, exactly like the mutated Python dict. -/
structure InitOutcome where
  reg : Registry
  runs : List String
  ok : Bool
deriving DecidableEq, Repr

mutual

/-- main.initialize_runtime_class: return at once when the class name is
already registered; otherwise compute the static-field defaults,
REGISTER the RuntimeClass, and only then look for a class initializer
and execute it.  The execution of the initializer is abstracted by
run_clinit_calls over the sequence of initialize_runtime_class calls it
makes.  fuel is an embedding artifact bounding the nesting depth. -/
def initialize_runtime_class (fuel : Nat) (env : List RtClassFile) (reg : Registry)
    (cf : RtClassFile) : InitOutcome :=
  match fuel with
  | 0 => ⟨reg, [], false⟩
  | fuel + 1 =>
    if (lookupReg reg cf.name).isSome then ⟨reg, [], true⟩
    else
      match default_statics cf.fields [] with
      | .error _ => ⟨reg, [], false⟩
      | .ok static_fields =>
        let reg1 : Registry := (cf.name, ⟨cf, static_fields⟩) :: reg
        match cf.clinit with
        | none => ⟨reg1, [], true⟩
        | some calls =>
          let o := run_clinit_calls fuel env reg1 calls
          ⟨o.reg, cf.name :: o.runs, o.ok⟩
termination_by (fuel, 0)

/-- The initialize_runtime_class calls made while a class initializer
runs, in order.  Each call resolves its class in loaded_classes; the
getstatic handler only initializes classes present there, so a missing
name is a fatal error of the surrounding handler.  A fatal outcome of a
nested initialization aborts the whole run, like the propagating Python
exception. -/
def run_clinit_calls (fuel : Nat) (env : List RtClassFile) (reg : Registry)
    (calls : List String) : InitOutcome :=
  match calls with
  | [] => ⟨reg, [], true⟩
  | c :: rest =>
    match env.find? (fun cf2 => cf2.name = c) with
    | none => ⟨reg, [], false⟩
    | some cf =>
      let o := initialize_runtime_class fuel env reg cf
      if o.ok then
        let o2 := run_clinit_calls fuel env o.reg rest
        ⟨o2.reg, o.runs ++ o2.runs, o2.ok⟩
      else ⟨o.reg, o.runs, false⟩
termination_by (fuel, calls.length + 1)

end

/-- Invariant tying a starting registry to an initialization outcome:
the started class initializers are pairwise distinct, existing
registrations are preserved verbatim, and every started initializer
belongs to a class that was unregistered at the start and registered at
the end. -/
def InitInv (reg : Registry) (o : InitOutcome) : Prop :=
  o.runs.Nodup ∧
  (∀ k rc, lookupReg reg k = some rc → lookupReg o.reg k = some rc) ∧
  (∀ c, c ∈ o.runs → lookupReg reg c = none ∧ (lookupReg o.reg c).isSome)

/-- Constant-pool bytes of a class file with constant_pool_count = 4
whose on-disk pool is a Long 42 (slots 1 and 2, phantom second slot)
followed by an Integer 7 (slot 3), then the two access-flag bytes that
follow the pool in the class-file layout. -/
def c1_pool_bytes : List Nat :=
  [5, 0, 0, 0, 0, 0, 0, 0, 42, 3, 0, 0, 0, 7, 0, 33]

/-- A minimal class-file byte image through the interfaces list: magic,
version 61.0, an empty constant pool (count 1), access flags 0x0021,
this_class 1, super_class 2, interfaces_count bytes 0x01 0x00
(big-endian 256), and a single interface index 5. -/
def c2_header_bytes : List Nat :=
  [0xCA, 0xFE, 0xBA, 0xBE, 0x00, 0x00, 0x00, 0x3D, 0x00, 0x01, 0x00, 0x21,
   0x00, 0x01, 0x00, 0x02, 0x01, 0x00, 0x00, 0x05]

/-- The character-to-type mapping of the AMENDED claim C8, written from
its words: the characters the parser actually supports, each consuming
exactly one character.  The table of sig_char_to_operand_types also
maps V, so V is accepted both as a parameter (yielding a VOID
parameter) and as the return type. -/
def amended_sig_char (c : Char) : OperandType :=
  if c = 'I' then .INT
  else if c = 'J' then .LONG
  else if c = 'F' then .FLOAT
  else if c = 'D' then .DOUBLE
  else if c = 'L' then .REFERENCE
  else .VOID

/-- Claim C1 (code_bug evidence): the constant-pool decoder reserves no
phantom slot after a Long.  On the on-disk pool of c1_pool_bytes
(count 4: Long 42 in slots 1-2, Integer 7 in slot 3) the decoder runs a
third iteration that consumes the access-flag byte 0 after the pool as a
constant tag and dies; decoding one fewer entry shows the Integer lands
at decoded index 2, so pool index 3 no longer resolves to the on-disk
slot-3 entry. -/
theorem c1_no_phantom_slot_after_long :
    parse_constant_pool ⟨c1_pool_bytes, 0⟩ 4 = .error (.unknownConstantTag 0) ∧
    parse_constant_pool ⟨c1_pool_bytes, 0⟩ 3 =
      .ok ([.longc 42, .integerc 7], ⟨c1_pool_bytes, 14⟩) ∧
    from_cp [.longc 42, .integerc 7] 3 = .error .indexOutOfRange :=
  ⟨rfl, rfl, rfl⟩

/-- Claim C2 (code_bug evidence): the loader reads interfaces_count
little-endian.  With interfaces_count bytes 0x01 0x00 (big-endian value
256) the loader parses exactly ONE interface entry, not 256. -/
theorem c2_interfaces_count_little_endian :
    parse_class_file_header ⟨c2_header_bytes, 0⟩ =
      .ok (⟨(61, 0), [], ["ACC_PUBLIC", "ACC_SUPER"], 1, 2, [5]⟩,
           ⟨c2_header_bytes, 20⟩) ∧
    bytesToNatBE [0x01, 0x00] = 256 ∧ (1 : Nat) ≠ 256 :=
  ⟨rfl, rfl, by decide⟩

/-- Claim C3 (code_bug evidence): the invokestatic handler combines its
two operand bytes through the signed-16 conversion, so operand bytes
0x80 0x00 yield constant-pool index -32768 instead of 32768, and
from_cp then fails its positivity assertion instead of resolving the
slot. -/
theorem c3_invokestatic_sign_extended :
    invokestatic_cp_index 0x80 0x00 = -32768 ∧
    from_cp [.integerc 7] (invokestatic_cp_index 0x80 0x00) =
      .error .assertionFailure :=
  ⟨rfl, rfl⟩

/-- Claim C4 (code_bug evidence): no iinc instruction ever executes.
The dispatch chain evaluates Opcode.pop (src/main.py line 308) before
the iinc handler at lines 434-437, and jvmconsts.Opcode has no pop
member, so on the claimed input (iinc with index byte 0x00 and constant
byte 0xFF, local 0 holding INT 5) the interpreter dies with an
AttributeError and the local is never updated — let alone by the
sign-extended -1 the claim requires.  (Even the unreachable handler
would diverge from the claim: parse_i1 does not sign-extend, so it
would add the unsigned 255.) -/
theorem c4_iinc_dispatch_attribute_error :
    execStep [0x84, 0x00, 0xFF] ⟨[], [some ⟨.INT, .vint 5⟩]⟩ 0 =
      .error .attributeErrorPop :=
  rfl

/-- Claim C5 (code_bug evidence): no idiv instruction ever executes.
Dispatch dies with the AttributeError of the missing Opcode.pop member
(src/main.py line 308) before the idiv handler at line 323, so with
v1 = -7 pushed first and v2 = 2 on top the interpreter pushes no
quotient, and with v2 = 0 it raises no ZeroDivisionError either — both
halves of the claim fail the same way.  (Even the unreachable handler
would diverge from the claim: it uses the flooring // operator, which
yields -4 for -7 idiv 2, not -3.) -/
theorem c5_idiv_dispatch_attribute_error :
    execStep [0x6C] ⟨[some ⟨.INT, .vint 2⟩, some ⟨.INT, .vint (-7)⟩], []⟩ 0 =
      .error .attributeErrorPop ∧
    execStep [0x6C] ⟨[some ⟨.INT, .vint 0⟩, some ⟨.INT, .vint 7⟩], []⟩ 0 =
      .error .attributeErrorPop :=
  ⟨rfl, rfl⟩

/-- Claim C6 (code_bug evidence): the invokespecial handler is a bare
continue, so execution resumes at the byte right after the opcode — the
two operand bytes are NOT skipped, and the first of them is fetched and
decoded as an opcode on the next loop iteration.  On code
[invokespecial, 0x00, 0x04, ireturn] the frame is indeed left unchanged
by the invokespecial step, but execution continues at pc 1, where the
operand byte 0x00 decodes as nop and its dispatch dies with the
AttributeError of the missing Opcode.pop member (src/main.py line 308)
— not, as the claim requires, at the instruction following the two
operand bytes. -/
theorem c6_invokespecial_does_not_skip_operands :
    execStep [0xB7, 0x00, 0x04, 0xAC] ⟨[], []⟩ 0 = .ok (.next ⟨[], []⟩ 1) ∧
    execLoop 5 [0xB7, 0x00, 0x04, 0xAC] ⟨[], []⟩ 0 = .error .attributeErrorPop :=
  ⟨rfl, rfl⟩

/-- Claim C8 (counterexample): the descriptor parser rejects the basic
type B (claimed to map to INT) and rejects an object parameter written
Lname; because only the single character L is consumed and the class
name is then parsed as further parameter characters. -/
theorem c8_descriptor_grammar_counterexample :
    parse_signature "(B)I" = .error .unknownType ∧
    parse_signature "(Ljava/lang/String;)V" = .error .unknownType :=
  ⟨rfl, rfl⟩

/-- Claim C10: whenever the dispatch cursor leaves the code byte array
without a return opcode having terminated the frame, the interpreter
raises the fatal end-of-method exception instead of silently returning
to the caller (the loop guard fails and the final raise of
execute_method runs). -/
theorem c10_end_of_code_fatal (fuel : Nat) (code : List Nat) (fr : Frame) (pc : Nat)
    (h : code.length ≤ pc) :
    execLoop (fuel + 1) code fr pc = .error .endOfMethod := by
  rw [execLoop]
  rw [if_neg (by omega)]

/-- Witness for c10_end_of_code_fatal at a concrete input: code of one
byte with the cursor already past it. -/
theorem c10_end_of_code_fatal_witness :
    execLoop 1 [0x00] ⟨[], []⟩ 1 = .error .endOfMethod :=
  c10_end_of_code_fatal 0 [0x00] ⟨[], []⟩ 1 (by decide)

/-- Claim C9 (code_bug evidence): no if_icmp instruction ever pops,
compares or branches.  For every one of the six if_icmp opcode bytes,
the dispatch chain evaluates Opcode.pop (src/main.py line 308) before
the comparison handler at lines 438-462, and jvmconsts.Opcode has no
pop member, so execution dies with an AttributeError — whatever the
surrounding code bytes, the operand stack and the locals hold. -/
theorem c9_if_icmp_dispatch_attribute_error (b : Nat) (hb : b ∈ icmp_opcodes)
    (code : List Nat) (fr : Frame) (pc : Nat)
    (hpc : code[pc]? = some b) :
    execStep code fr pc = .error .attributeErrorPop := by
  simp only [icmp_opcodes, List.mem_cons, List.not_mem_nil, or_false] at hb
  rcases hb with rfl | rfl | rfl | rfl | rfl | rfl <;>
    simp [execStep, readI1, hpc, opcode_bytes]

/-- Witness for c9_if_icmp_dispatch_attribute_error: an if_icmplt with
branch bytes 0x00 0x05 and two INT operands on the stack dies at
dispatch. -/
theorem c9_if_icmp_dispatch_attribute_error_witness :
    execStep [0xA1, 0x00, 0x05] ⟨[some ⟨.INT, .vint 2⟩, some ⟨.INT, .vint 1⟩], []⟩ 0 =
      .error .attributeErrorPop :=
  c9_if_icmp_dispatch_attribute_error 0xA1 (by decide) [0xA1, 0x00, 0x05]
    ⟨[some ⟨.INT, .vint 2⟩, some ⟨.INT, .vint 1⟩], []⟩ 0 rfl

/-- The parameter loop of the descriptor parser on a run of supported
characters: each of I, J, F, D, L, V is consumed as exactly one
character and mapped through the single-character table (V included:
the table maps it to VOID, so it is accepted as a parameter); the loop
stops at the closing parenthesis. -/
theorem parse_sig_args_supported (params : List Char) (tail : List Char)
    (h : ∀ c ∈ params, c = 'I' ∨ c = 'J' ∨ c = 'F' ∨ c = 'D' ∨ c = 'L' ∨ c = 'V') :
    parse_sig_args (params ++ ')' :: tail) =
      .ok (params.map amended_sig_char, ')' :: tail) := by
  induction params with
  | nil => simp [parse_sig_args]
  | cons p ps ih =>
    have hp := h p (by simp)
    have hps : ∀ c ∈ ps, c = 'I' ∨ c = 'J' ∨ c = 'F' ∨ c = 'D' ∨ c = 'L' ∨ c = 'V' :=
      fun c hc => h c (by simp [hc])
    rcases hp with rfl | rfl | rfl | rfl | rfl | rfl <;>
      simp [parse_sig_args, sig_char_to_operand_types, amended_sig_char, ih hps]

/-- Claim C8 as amended: the parser supports exactly the characters
I, J, F, D, L, V — mapped to INT, LONG, FLOAT, DOUBLE, REFERENCE, VOID
— each consuming exactly one character, both in parameter position
(so V is accepted as a VOID parameter, and no class name is consumed
after L) and as the return type; the characters B, C, S, Z, the array
marker and every other character are fatal rather than mapped to INT
or REFERENCE.  For every descriptor built of supported characters, the
parse result is the character-wise mapping. -/
theorem c8_descriptor_supported_subset (params : List Char) (rc : Char)
    (hp : ∀ c ∈ params, c = 'I' ∨ c = 'J' ∨ c = 'F' ∨ c = 'D' ∨ c = 'L' ∨ c = 'V')
    (hr : rc = 'I' ∨ rc = 'J' ∨ rc = 'F' ∨ rc = 'D' ∨ rc = 'L' ∨ rc = 'V') :
    parse_signature (String.mk ('(' :: params ++ ')' :: [rc])) =
      .ok (params.map amended_sig_char, amended_sig_char rc) := by
  unfold parse_signature
  rw [show (String.mk ('(' :: params ++ ')' :: [rc])).toList
      = '(' :: (params ++ ')' :: [rc]) from rfl]
  simp only [parse_signature_chars]
  rw [parse_sig_args_supported params [rc] hp]
  rcases hr with rfl | rfl | rfl | rfl | rfl | rfl <;>
    simp [sig_char_to_operand_types, amended_sig_char]

/-- Witness for c8_descriptor_supported_subset: the descriptor (VL)I
parses to a VOID parameter (the table accepts V in parameter position),
a REFERENCE parameter from the bare L, and an INT return. -/
theorem c8_descriptor_supported_subset_witness :
    parse_signature (String.mk ['(', 'V', 'L', ')', 'I']) =
      .ok ([.VOID, .REFERENCE], .INT) := by
  have h := c8_descriptor_supported_subset ['V', 'L'] 'I' (by decide) (by decide)
  exact h

/-- The invariant holds for an outcome that leaves the registry alone
and starts no initializer. -/
theorem initInv_trivial (reg : Registry) (b : Bool) : InitInv reg ⟨reg, [], b⟩ :=
  ⟨List.nodup_nil, fun _ _ h => h, fun c hc => absurd hc (List.not_mem_nil c)⟩

/-- Registry lookup against a fresh insertion. -/
theorem lookupReg_cons (n : String) (rc : RuntimeClass) (t : Registry) (k : String) :
    lookupReg ((n, rc) :: t) k = if n = k then some rc else lookupReg t k := rfl

/-- The registry invariant is preserved by the sequence of
initialize_runtime_class calls a class initializer makes, assuming it
holds for single initializations at the same nesting depth. -/
theorem run_clinit_calls_inv (fuel : Nat)
    (H : ∀ env reg cf, InitInv reg (initialize_runtime_class fuel env reg cf)) :
    ∀ (calls : List String) (env : List RtClassFile) (reg : Registry),
      InitInv reg (run_clinit_calls fuel env reg calls) := by
  intro calls
  induction calls with
  | nil =>
    intro env reg
    rw [run_clinit_calls.eq_1]
    exact initInv_trivial reg true
  | cons c rest ih =>
    intro env reg
    cases hf : List.find? (fun cf2 => decide (cf2.name = c)) env with
    | none =>
      have heq : run_clinit_calls fuel env reg (c :: rest) = ⟨reg, [], false⟩ := by
        simp [run_clinit_calls.eq_2, hf]
      rw [heq]
      exact initInv_trivial reg false
    | some cf =>
      obtain ⟨hnd1, hmono1, hrun1⟩ := H env reg cf
      cases hok : (initialize_runtime_class fuel env reg cf).ok with
      | false =>
        have heq : run_clinit_calls fuel env reg (c :: rest) =
            ⟨(initialize_runtime_class fuel env reg cf).reg,
             (initialize_runtime_class fuel env reg cf).runs, false⟩ := by
          simp [run_clinit_calls.eq_2, hf, hok]
        rw [heq]
        exact ⟨hnd1, hmono1, hrun1⟩
      | true =>
        obtain ⟨hnd2, hmono2, hrun2⟩ := ih env (initialize_runtime_class fuel env reg cf).reg
        have heq : run_clinit_calls fuel env reg (c :: rest) =
            ⟨(run_clinit_calls fuel env (initialize_runtime_class fuel env reg cf).reg rest).reg,
             (initialize_runtime_class fuel env reg cf).runs ++
               (run_clinit_calls fuel env (initialize_runtime_class fuel env reg cf).reg rest).runs,
             (run_clinit_calls fuel env (initialize_runtime_class fuel env reg cf).reg rest).ok⟩ := by
          simp [run_clinit_calls.eq_2, hf, hok]
        rw [heq]
        refine ⟨?_, ?_, ?_⟩
        · refine List.Nodup.append hnd1 hnd2 ?_
          intro a ha1 ha2
          have h1 := (hrun1 a ha1).2
          have h2 := (hrun2 a ha2).1
          rw [h2] at h1
          simp at h1
        · intro k rc hk
          exact hmono2 k rc (hmono1 k rc hk)
        · intro a ha
          rcases List.mem_append.mp ha with ha1 | ha2
          · refine ⟨(hrun1 a ha1).1, ?_⟩
            obtain ⟨rc, hrc⟩ := Option.isSome_iff_exists.mp (hrun1 a ha1).2
            have hm := hmono2 a rc hrc
            simp [hm]
          · refine ⟨?_, (hrun2 a ha2).2⟩
            have h2 := (hrun2 a ha2).1
            cases hra : lookupReg reg a with
            | none => rfl
            | some rc =>
              have hm := hmono1 a rc hra
              rw [hm] at h2
              cases h2

/-- The registry invariant holds for every single initialization: the
registry only grows, no initializer of an already-registered class is
started, and every started initializer registers its class. -/
theorem initialize_runtime_class_inv :
    ∀ (fuel : Nat) (env : List RtClassFile) (reg : Registry) (cf : RtClassFile),
      InitInv reg (initialize_runtime_class fuel env reg cf) := by
  intro fuel
  induction fuel with
  | zero =>
    intro env reg cf
    rw [initialize_runtime_class.eq_1]
    exact initInv_trivial reg false
  | succ fuel ih =>
    intro env reg cf
    cases hreg : (lookupReg reg cf.name).isSome with
    | true =>
      have heq : initialize_runtime_class (fuel + 1) env reg cf = ⟨reg, [], true⟩ := by
        simp [initialize_runtime_class.eq_2, hreg]
      rw [heq]
      exact initInv_trivial reg true
    | false =>
      have hregnone : lookupReg reg cf.name = none := by
        cases h : lookupReg reg cf.name with
        | none => rfl
        | some rc => rw [h] at hreg; cases hreg
      cases hds : default_statics cf.fields [] with
      | error e =>
        have heq : initialize_runtime_class (fuel + 1) env reg cf = ⟨reg, [], false⟩ := by
          simp [initialize_runtime_class.eq_2, hreg, hds]
        rw [heq]
        exact initInv_trivial reg false
      | ok sf =>
        have hhead : lookupReg ((cf.name, ⟨cf, sf⟩) :: reg) cf.name = some ⟨cf, sf⟩ := by
          rw [lookupReg_cons, if_pos rfl]
        have hconsmono : ∀ k rc, lookupReg reg k = some rc →
            lookupReg ((cf.name, ⟨cf, sf⟩) :: reg) k = some rc := by
          intro k rc hk
          have hne : cf.name ≠ k := by
            intro h
            rw [h] at hregnone
            rw [hregnone] at hk
            cases hk
          rw [lookupReg_cons, if_neg hne]
          exact hk
        have hconsnone : ∀ a, lookupReg ((cf.name, ⟨cf, sf⟩) :: reg) a = none →
            lookupReg reg a = none := by
          intro a h
          cases hra : lookupReg reg a with
          | none => rfl
          | some rc =>
            have hm := hconsmono a rc hra
            rw [hm] at h
            cases h
        cases hcl : cf.clinit with
        | none =>
          have heq : initialize_runtime_class (fuel + 1) env reg cf =
              ⟨(cf.name, ⟨cf, sf⟩) :: reg, [], true⟩ := by
            simp [initialize_runtime_class.eq_2, hreg, hds, hcl]
          rw [heq]
          exact ⟨List.nodup_nil, hconsmono, fun c hc => absurd hc (List.not_mem_nil c)⟩
        | some calls =>
          obtain ⟨hnd, hmono, hrun⟩ :=
            run_clinit_calls_inv fuel ih calls env ((cf.name, ⟨cf, sf⟩) :: reg)
          have heq : initialize_runtime_class (fuel + 1) env reg cf =
              ⟨(run_clinit_calls fuel env ((cf.name, ⟨cf, sf⟩) :: reg) calls).reg,
               cf.name :: (run_clinit_calls fuel env ((cf.name, ⟨cf, sf⟩) :: reg) calls).runs,
               (run_clinit_calls fuel env ((cf.name, ⟨cf, sf⟩) :: reg) calls).ok⟩ := by
            simp [initialize_runtime_class.eq_2, hreg, hds, hcl]
          rw [heq]
          refine ⟨?_, ?_, ?_⟩
          · rw [List.nodup_cons]
            refine ⟨?_, hnd⟩
            intro hmem
            have h1 := (hrun cf.name hmem).1
            rw [hhead] at h1
            cases h1
          · intro k rc hk
            exact hmono k rc (hconsmono k rc hk)
          · intro a ha
            rcases List.mem_cons.mp ha with rfl | ha2
            · refine ⟨hregnone, ?_⟩
              have hm := hmono cf.name ⟨cf, sf⟩ hhead
              simp [hm]
            · obtain ⟨h1, h2⟩ := hrun a ha2
              exact ⟨hconsnone a h1, h2⟩

/-- Claim C7: across any single run, the class initializer of a given
class is started at most once (the run list of any initialization is
duplicate-free and never contains an already-registered class,
including on re-entrant calls from within a class initializer);
initialize_runtime_class returns immediately, leaving the registry
unchanged, when the class name is already registered; and when the
class is new it registers the RuntimeClass with the type-appropriate
zero values of its static fields BEFORE the class initializer runs, so
the registration survives into the final registry. -/
theorem c7_clinit_at_most_once (fuel : Nat) (env : List RtClassFile) (reg : Registry)
    (cf : RtClassFile) :
    (initialize_runtime_class fuel env reg cf).runs.Nodup ∧
    (∀ c, (lookupReg reg c).isSome → c ∉ (initialize_runtime_class fuel env reg cf).runs) ∧
    (1 ≤ fuel → (lookupReg reg cf.name).isSome →
      initialize_runtime_class fuel env reg cf = ⟨reg, [], true⟩) ∧
    (∀ sf, 1 ≤ fuel → lookupReg reg cf.name = none →
      default_statics cf.fields [] = .ok sf →
      lookupReg (initialize_runtime_class fuel env reg cf).reg cf.name = some ⟨cf, sf⟩) := by
  obtain ⟨hnd, hmono, hrun⟩ := initialize_runtime_class_inv fuel env reg cf
  refine ⟨hnd, ?_, ?_, ?_⟩
  · intro c hc hmem
    have h1 := (hrun c hmem).1
    rw [h1] at hc
    simp at hc
  · intro hfuel hreg2
    cases fuel with
    | zero => omega
    | succ fuel => simp [initialize_runtime_class.eq_2, hreg2]
  · intro sf hfuel hnone hds
    cases fuel with
    | zero => omega
    | succ fuel =>
      have hregfalse : (lookupReg reg cf.name).isSome = false := by simp [hnone]
      have hhead : lookupReg ((cf.name, ⟨cf, sf⟩) :: reg) cf.name = some ⟨cf, sf⟩ := by
        rw [lookupReg_cons, if_pos rfl]
      cases hcl : cf.clinit with
      | none =>
        have heq : initialize_runtime_class (fuel + 1) env reg cf =
            ⟨(cf.name, ⟨cf, sf⟩) :: reg, [], true⟩ := by
          simp [initialize_runtime_class.eq_2, hregfalse, hds, hcl]
        rw [heq]
        exact hhead
      | some calls =>
        have heq : initialize_runtime_class (fuel + 1) env reg cf =
            ⟨(run_clinit_calls fuel env ((cf.name, ⟨cf, sf⟩) :: reg) calls).reg,
             cf.name :: (run_clinit_calls fuel env ((cf.name, ⟨cf, sf⟩) :: reg) calls).runs,
             (run_clinit_calls fuel env ((cf.name, ⟨cf, sf⟩) :: reg) calls).ok⟩ := by
          simp [initialize_runtime_class.eq_2, hregfalse, hds, hcl]
        rw [heq]
        obtain ⟨hnd2, hmono2, hrun2⟩ :=
          run_clinit_calls_inv fuel (initialize_runtime_class_inv fuel) calls env
            ((cf.name, ⟨cf, sf⟩) :: reg)
        exact hmono2 cf.name ⟨cf, sf⟩ hhead

/-- Witness for c7_clinit_at_most_once: a class A with one static INT
field whose class initializer re-entrantly initializes A itself; the
run list is duplicate-free (the initializer starts once) and A ends up
registered with its field defaulted to INT 0. -/
theorem c7_clinit_at_most_once_witness :
    (initialize_runtime_class 3 [⟨"A", [⟨"N", "I", 9⟩], some ["A"]⟩] []
       ⟨"A", [⟨"N", "I", 9⟩], some ["A"]⟩).runs.Nodup ∧
    lookupReg (initialize_runtime_class 3 [⟨"A", [⟨"N", "I", 9⟩], some ["A"]⟩] []
       ⟨"A", [⟨"N", "I", 9⟩], some ["A"]⟩).reg "A" =
      some ⟨⟨"A", [⟨"N", "I", 9⟩], some ["A"]⟩, [("N", ⟨.INT, .vint 0⟩)]⟩ := by
  refine ⟨(c7_clinit_at_most_once 3 _ [] _).1, ?_⟩
  exact (c7_clinit_at_most_once 3 [⟨"A", [⟨"N", "I", 9⟩], some ["A"]⟩] []
      ⟨"A", [⟨"N", "I", 9⟩], some ["A"]⟩).2.2.2 [("N", ⟨.INT, .vint 0⟩)]
    (by omega) rfl rfl
